import Mathlib

/-!
Verification of the user-registration service (Express + Joi + Mongoose).

The embedding models:
* `src/middleware/validation.js` — the Joi `registrationSchema` together with
  the behaviour of `schema.validate(body, { abortEarly: false, stripUnknown: true })`
  and the `validateRegistration` middleware;
* `src/routes/auth.js` — the `POST /api/auth/register` handler, its catch
  branch, and the `GET /api/auth/users` handler.

Request bodies are modelled as JSON objects restricted to string-valued
fields: association lists `List (String × String)` (a missing key models an
absent/undefined field; all payloads relevant to the claims are
string-valued). Joi rule semantics (with `abortEarly: false`): a missing key
yields the single `any.required` error for that key; an empty string yields
the single default `string.empty` error for that key (base failures abort the
remaining rules of that key); otherwise every chained rule of the key is
evaluated and each failing rule contributes one `{field, message}` pair, in
chain order; keys are processed in schema order and unknown keys are
stripped, never reported.

The Mongoose `User` model (`models/User.js`) is not part of the sources;
where its behaviour decides a claim it is modelled from the spec and marked
as such in the doc comment.
-/

set_option autoImplicit false

namespace Signup

/-- Payload is a JSON object with string fields: an association list from
field name to value. A key that is absent models an undefined field. -/
abbrev Payload := List (String × String)

/-- Reading a field of the request body (`req.body.<k>`): the first entry
with the given key, or `none` when the key is absent. -/
def getField (body : Payload) (k : String) : Option String :=
  (body.find? (fun kv => kv.1 = k)).map (fun kv => kv.2)

/-- The six keys of `registrationSchema`. -/
def knownFields : List String :=
  ["firstName", "lastName", "email", "phoneNo", "createPassword", "confirmPassword"]

/-- Joi `stripUnknown: true`: the normalized value has every unknown key
removed. (The middleware computes this value but discards it.) -/
def stripUnknown (body : Payload) : Payload :=
  body.filter (fun kv => knownFields.contains kv.1)

/-- JavaScript `\s` (the whitespace class used by the name patterns). -/
def isJsWhitespace (c : Char) : Bool :=
  c = ' ' || c = '\t' || c = '\n' || c = '\r' || c = '\x0b' || c = '\x0c' ||
  c.toNat = 0xa0 || c.toNat = 0x1680 ||
  (0x2000 ≤ c.toNat && c.toNat ≤ 0x200a) ||
  c.toNat = 0x2028 || c.toNat = 0x2029 || c.toNat = 0x202f ||
  c.toNat = 0x205f || c.toNat = 0x3000 || c.toNat = 0xfeff

/-- The pattern `/^[a-zA-Z\s]+$/` of `firstName` and `lastName`: one or more
characters, each an ASCII letter or whitespace, spanning the whole string. -/
def namePatternOk (s : String) : Bool :=
  !s.data.isEmpty && s.data.all (fun c => c.isAlpha || isJsWhitespace c)

/-- The pattern `/^[0-9]{10}$/` of `phoneNo`: exactly ten decimal digits. -/
def phonePatternOk (s : String) : Bool :=
  s.length = 10 && s.data.all Char.isDigit

/-- Splitting a character list at a separator (model of the splitting used
by the email check; kernel-reduction friendly). -/
def splitChar (sep : Char) : List Char → List (List Char)
  | [] => [[]]
  | c :: rest =>
    match splitChar sep rest with
    | [] => if c = sep then [[], []] else [[c]]
    | h :: t => if c = sep then [] :: h :: t else (c :: h) :: t

/-- Characters joi accepts in a dot-atom of the email local part
(RFC 5322 atext; the apostrophe and the braces are given by code point). -/
def emailAtomChar (c : Char) : Bool :=
  c.isAlphanum ||
  "!#$%&*+-/=?^_`|~".data.contains c ||
  c.toNat = 39 || c.toNat = 0x7b || c.toNat = 0x7d

/-- Model of the joi `Joi.string().email()` rule (the rule lives in the joi
library, not in this repository): `local@domain` with a non-empty dot-atom
local part of at most 64 characters, and a domain of at least two non-empty
labels of letters, digits and inner hyphens, whose last label (the TLD) is
alphabetic of length at least 2. This captures the library behaviour on the
ASCII addresses exercised by the claims. -/
def joiEmailOk (s : String) : Bool :=
  match splitChar '@' s.data with
  | [localPart, domain] =>
    let localAtoms := splitChar '.' localPart
    let labels := splitChar '.' domain
    (!localPart.isEmpty && localPart.length ≤ 64 &&
      localAtoms.all (fun a => !a.isEmpty && a.all emailAtomChar)) &&
    (2 ≤ labels.length &&
      labels.all (fun l =>
        !l.isEmpty && l.length ≤ 63 &&
        l.all (fun c => c.isAlphanum || c = '-') &&
        l.head? ≠ some '-' && l.getLast? ≠ some '-') &&
      (match labels.getLast? with
       | some tld => 2 ≤ tld.length && tld.all Char.isAlpha
       | none => false))
  | _ => false

/-- Characters of the single (first-position) class
`[A-Za-z\d@$!%*?&]` of the createPassword pattern. -/
def allowedPasswordChar (c : Char) : Bool :=
  c.isAlpha || c.isDigit || "@$!%*?&".data.contains c

/-- JavaScript line terminators, which `.` in a regex does not match. -/
def isLineTerm (c : Char) : Bool :=
  c = '\n' || c = '\r' || c.toNat = 0x2028 || c.toNat = 0x2029

/-- The characters a `(?=.*X)` lookahead at position 0 can reach: the
maximal prefix free of line terminators. -/
def firstLine (s : String) : List Char :=
  s.data.takeWhile (fun c => !isLineTerm c)

/-- The pattern of the first character consumed by the regex body
`[A-Za-z\d@$!%*?&]` (the regex has no `+` or `$` after the class). -/
def firstCharAllowed (s : String) : Bool :=
  match s.data with
  | [] => false
  | c :: _ => allowedPasswordChar c

/-- Lookahead `(?=.*[a-z])` at position 0. -/
def hasLowerFL (s : String) : Bool := (firstLine s).any Char.isLower

/-- Lookahead `(?=.*[A-Z])` at position 0. -/
def hasUpperFL (s : String) : Bool := (firstLine s).any Char.isUpper

/-- Lookahead `(?=.*\d)` at position 0. -/
def hasDigitFL (s : String) : Bool := (firstLine s).any Char.isDigit

/-- Lookahead `(?=.*[@$!%*?&])` at position 0. -/
def hasSpecialFL (s : String) : Bool :=
  (firstLine s).any (fun c => "@$!%*?&".data.contains c)

/-- The createPassword pattern
`/^(?=.*[a-z])(?=.*[A-Z])(?=.*\d)(?=.*[@$!%*?&])[A-Za-z\d@$!%*?&]/`:
an unanchored-at-the-end JavaScript regex that tests the four lookaheads at
position 0 and then consumes a single allowed character; it constrains only
the first character and requires each class to occur before any line
terminator. -/
def passwordPatternOk (s : String) : Bool :=
  firstCharAllowed s && hasLowerFL s && hasUpperFL s && hasDigitFL s &&
  hasSpecialFL s

/-- One chained Joi rule of a string key: a predicate and the message
produced when it fails. -/
structure Rule where
  ok : String → Bool
  message : String

/-- Joi rule evaluation for a present, non-empty string with
`abortEarly: false`: every rule is evaluated and each failing rule yields
one `{field, message}` pair, in chain order. -/
def runRules (field : String) (rules : List Rule) (s : String) : List (String × String) :=
  (rules.filter (fun r => !(r.ok s))).map (fun r => (field, r.message))

/-- Violations of one required `Joi.string()` key: a missing key gives the
single `any.required` error; an empty string gives the single default
`string.empty` error (base failures abort the key); otherwise all chained
rules run. -/
def stringFieldViolations (field requiredMsg emptyMsg : String) (rules : List Rule) :
    Option String → List (String × String)
  | none => [(field, requiredMsg)]
  | some s =>
    if s = "" then [(field, emptyMsg)]
    else runRules field rules s

/-- The `firstName` key of `registrationSchema`. -/
def firstNameViolations : Option String → List (String × String) :=
  stringFieldViolations "firstName" "First name is required"
    "\"firstName\" is not allowed to be empty"
    [⟨fun s => decide (2 ≤ s.length), "First name must be at least 2 characters long"⟩,
     ⟨fun s => decide (s.length ≤ 50), "First name cannot exceed 50 characters"⟩,
     ⟨namePatternOk, "First name can only contain letters and spaces"⟩]

/-- The `lastName` key of `registrationSchema`. -/
def lastNameViolations : Option String → List (String × String) :=
  stringFieldViolations "lastName" "Last name is required"
    "\"lastName\" is not allowed to be empty"
    [⟨fun s => decide (2 ≤ s.length), "Last name must be at least 2 characters long"⟩,
     ⟨fun s => decide (s.length ≤ 50), "Last name cannot exceed 50 characters"⟩,
     ⟨namePatternOk, "Last name can only contain letters and spaces"⟩]

/-- The `email` key of `registrationSchema`. -/
def emailViolations : Option String → List (String × String) :=
  stringFieldViolations "email" "Email is required"
    "\"email\" is not allowed to be empty"
    [⟨joiEmailOk, "Please enter a valid email address"⟩]

/-- The `phoneNo` key of `registrationSchema`. -/
def phoneNoViolations : Option String → List (String × String) :=
  stringFieldViolations "phoneNo" "Phone number is required"
    "\"phoneNo\" is not allowed to be empty"
    [⟨phonePatternOk, "Phone number must be exactly 10 digits"⟩]

/-- The chained rules of the `createPassword` key, in chain order:
min(6), max(128), pattern. -/
def createPasswordRules : List Rule :=
  [⟨fun s => decide (6 ≤ s.length), "Password must be at least 6 characters long"⟩,
   ⟨fun s => decide (s.length ≤ 128), "Password cannot exceed 128 characters"⟩,
   ⟨passwordPatternOk,
    "Password must contain at least one uppercase letter, one lowercase letter, one number, and one special character"⟩]

/-- The `createPassword` key of `registrationSchema`. -/
def createPasswordViolations : Option String → List (String × String) :=
  stringFieldViolations "createPassword" "Password is required"
    "\"createPassword\" is not allowed to be empty"
    createPasswordRules

/-- The `confirmPassword` key: `Joi.string().valid(Joi.ref('createPassword')).required()`.
A missing key gives `any.required`; a present value equal to the resolved
reference is accepted immediately (the `valid` match shortcuts every other
check); any other value gives the single `any.only` error. -/
def confirmPasswordViolations (createOpt : Option String) :
    Option String → List (String × String)
  | none => [("confirmPassword", "Confirm password is required")]
  | some c =>
    if createOpt = some c then []
    else [("confirmPassword", "Confirm password must match the password")]

/-- All violations of `registrationSchema.validate(body, { abortEarly: false,
stripUnknown: true })`, keys in schema order, one pair per violated rule
(`detail.path[0]` is the key, `detail.message` the configured message). -/
def validationErrors (body : Payload) : List (String × String) :=
  firstNameViolations (getField body "firstName") ++
  lastNameViolations (getField body "lastName") ++
  emailViolations (getField body "email") ++
  phoneNoViolations (getField body "phoneNo") ++
  createPasswordViolations (getField body "createPassword") ++
  confirmPasswordViolations (getField body "createPassword") (getField body "confirmPassword")

/-- Outcome of the `validateRegistration` middleware: either control passes
to the handler with `req.body` (the middleware never reassigns `req.body`:
it destructures only `error` from the validate result, so the body handed
onward is the original one), or a 400 response terminates the request. -/
inductive MiddlewareResult where
  | next (body : Payload)
  | reject (status : Nat) (message : String) (errors : List (String × String))
  deriving DecidableEq, Repr

/-- The `validateRegistration` middleware of `src/middleware/validation.js`. -/
def validateRegistration (body : Payload) : MiddlewareResult :=
  match validationErrors body with
  | [] => .next body
  | errs => .reject 400 "Validation failed" errs

/-- A persisted user document (the relevant paths of the Mongoose `User`). -/
structure UserRecord where
  firstName : String
  lastName : String
  email : String
  phoneNo : String
  password : String
  deriving DecidableEq, Repr

/-- The store: the `users` collection in insertion order. -/
abbrev Store := List UserRecord

/-- Modelled from the spec: `models/User.js` is not among the sources; per
§4.2 the password is irreversibly transformed via a one-way cryptographic
hash with per-record random salt before storing. This computable stand-in
plays the role of that bcrypt-style hash: a `$2b$10$<salt>$<hex digest>`
string. One-wayness itself is a cryptographic property outside the model. -/
def hashPassword (salt pw : String) : String :=
  "$2b$10$" ++ salt ++ "$" ++
    String.mk (Nat.toDigits 16 (pw.data.foldl (fun a c => (a * 31 + c.toNat) % 4294967296) 5381))

/-- The document built by the register handler:
`new User({firstName, lastName, email, phoneNo, password: createPassword})`,
with the password replaced by its salted hash on save (the pre-save hook is
modelled from the spec, see `hashPassword`). Destructuring an absent key
yields `undefined`, modelled as `""` via `getD` (validation guarantees every
key is present on this path). -/
def mkUser (salt : String) (body : Payload) : UserRecord :=
  { firstName := (getField body "firstName").getD ""
    lastName := (getField body "lastName").getD ""
    email := (getField body "email").getD ""
    phoneNo := (getField body "phoneNo").getD ""
    password := hashPassword salt ((getField body "createPassword").getD "") }

/-- JSON serialization of a stored user with its password path included. -/
def userJsonFull (u : UserRecord) : List (String × String) :=
  [("firstName", u.firstName), ("lastName", u.lastName), ("email", u.email),
   ("phoneNo", u.phoneNo), ("password", u.password)]

/-- The user as returned to callers, password path omitted. On the listing
path this is the `.select('-password')` projection from `src/routes/auth.js`;
on the register-response path (`data: user`) the omission is the `toJSON`
behaviour of the missing `models/User.js`, modelled from the spec (§4.2/§6:
the password is never returned in any read response). -/
def userPublicJson (u : UserRecord) : List (String × String) :=
  (userJsonFull u).filter (fun kv => kv.1 ≠ "password")

/-- Response of the register endpoint (`data` is the serialized created
record on success). -/
structure RegisterResponse where
  status : Nat
  success : Bool
  message : String
  errors : List (String × String)
  data : Option (List (String × String))
  deriving DecidableEq, Repr

/-- The handler body of `POST /api/auth/register` (after the middleware):
`User.findOne({$or: [{email}, {phoneNo}]})` scans the collection for the
first document matching either key; on a hit it answers 400 with the field
chosen by `existingUser.email === email ? 'email' : 'phoneNo'`; otherwise it
saves the new document and answers 201 with the created record. -/
def registerHandler (salt : String) (body : Payload) (store : Store) :
    RegisterResponse × Store :=
  let email := (getField body "email").getD ""
  let phoneNo := (getField body "phoneNo").getD ""
  match store.find? (fun u => u.email = email || u.phoneNo = phoneNo) with
  | some existingUser =>
    (⟨400, false, "User already exists",
      [(if existingUser.email = email then "email" else "phoneNo",
        if existingUser.email = email then "Email is already registered"
        else "Phone number is already registered")], none⟩, store)
  | none =>
    let user := mkUser salt body
    (⟨201, true, "User registered successfully", [], some (userPublicJson user)⟩,
      store ++ [user])

/-- The full `POST /api/auth/register` route: middleware, then handler. -/
def register (salt : String) (body : Payload) (store : Store) :
    RegisterResponse × Store :=
  match validateRegistration body with
  | .reject status message errors => (⟨status, false, message, errors, none⟩, store)
  | .next b => registerHandler salt b store

/-- The error a failed `user.save()` lands in the catch branch with:
a Mongoose `ValidationError` (path/message pairs), a duplicate-key error
(`code === 11000`, with the keys of `error.keyPattern`), or anything else. -/
inductive DbError where
  | validationError (errors : List (String × String))
  | duplicateKey (keyPattern : List String)
  | other
  deriving DecidableEq, Repr

/-- The catch branch of the register handler (`src/routes/auth.js` lines
184–221): Mongoose validation errors map to the 400 validation shape;
duplicate-key errors map to the 400 conflict shape with the field
`Object.keys(error.keyPattern)[0]` (JavaScript renders a missing key as
`undefined`); everything else maps to the generic 500. -/
def handleRegistrationError : DbError → RegisterResponse
  | .validationError errs => ⟨400, false, "Validation failed", errs, none⟩
  | .duplicateKey keyPattern =>
    let field := keyPattern.head?.getD "undefined"
    ⟨400, false, "User already exists",
      [(field, field ++ " is already registered")], none⟩
  | .other =>
    ⟨500, false, "Internal server error",
      [("server", "Something went wrong. Please try again later.")], none⟩

/-- Response of the listing endpoint. -/
structure UsersResponse where
  status : Nat
  success : Bool
  message : String
  data : List (List (String × String))
  deriving DecidableEq, Repr

/-- The `GET /api/auth/users` handler: `User.find().select('-password')`
returns every stored document with the password path projected away. -/
def listUsers (store : Store) : UsersResponse :=
  ⟨200, true, "Users retrieved successfully", store.map userPublicJson⟩

/-- Definition following the words of the spec claim for the createPassword
rule (for comparison with the code's rule): a string of length 6–128 that
contains at least one lowercase letter, one uppercase letter, one digit and
one character from `@$!%*?&`, with no further constraint. -/
def specClaimedPasswordRule (s : String) : Bool :=
  decide (6 ≤ s.length) && decide (s.length ≤ 128) &&
  s.data.any Char.isLower && s.data.any Char.isUpper &&
  s.data.any Char.isDigit && s.data.any (fun c => "@$!%*?&".data.contains c)

/-! Helper lemmas shared by the claim theorems. -/

theorem runRules_eq_nil_iff (field : String) (rules : List Rule) (s : String) :
    runRules field rules s = [] ↔ ∀ r ∈ rules, r.ok s = true := by
  simp [runRules, List.filter_eq_nil_iff]

theorem createPasswordViolations_eq_nil_iff (s : String) :
    createPasswordViolations (some s) = [] ↔
      (6 ≤ s.length ∧ s.length ≤ 128 ∧ firstCharAllowed s = true ∧
       hasLowerFL s = true ∧ hasUpperFL s = true ∧ hasDigitFL s = true ∧
       hasSpecialFL s = true) := by
  by_cases hs : s = ""
  · subst hs
    simp [createPasswordViolations, stringFieldViolations]
  · rw [createPasswordViolations, stringFieldViolations, if_neg hs,
      runRules_eq_nil_iff]
    constructor
    · intro h
      have h1 := h ⟨fun s => decide (6 ≤ s.length),
        "Password must be at least 6 characters long"⟩ (by simp [createPasswordRules])
      have h2 := h ⟨fun s => decide (s.length ≤ 128),
        "Password cannot exceed 128 characters"⟩ (by simp [createPasswordRules])
      have h3 := h ⟨passwordPatternOk,
        "Password must contain at least one uppercase letter, one lowercase letter, one number, and one special character"⟩
        (by simp [createPasswordRules])
      simp only [decide_eq_true_eq] at h1 h2
      simp only [passwordPatternOk, Bool.and_eq_true] at h3
      exact ⟨h1, h2, h3.1.1.1.1, h3.1.1.1.2, h3.1.1.2, h3.1.2, h3.2⟩
    · rintro ⟨h1, h2, h3, h4, h5, h6, h7⟩ r hr
      simp only [createPasswordRules, List.mem_cons, List.not_mem_nil, or_false] at hr
      rcases hr with hr | hr | hr <;> subst hr
      · simpa using h1
      · simpa using h2
      · simp [passwordPatternOk, h3, h4, h5, h6, h7]

theorem password_not_mem_userPublicJson (u : UserRecord) :
    "password" ∉ (userPublicJson u).map Prod.fst := by
  intro h
  rcases List.mem_map.mp h with ⟨kv, hkv, hfst⟩
  have := List.of_mem_filter hkv
  simp only [decide_eq_true_eq] at this
  exact this hfst

/-! Theorems for the claims. -/

/-- C6 (counterexample): the createPassword rule does not accept exactly the
strings the claim describes: the string starting with a space satisfies the
claimed description (length 8, has lowercase, uppercase, digit and a special
character) yet the code's rule rejects it, because the regex additionally
requires the first character to lie in `[A-Za-z0-9@$!%*?&]`. -/
theorem c6_counterexample :
    specClaimedPasswordRule " Abc12!@" = true ∧
    createPasswordViolations (some " Abc12!@") ≠ [] := by
  constructor
  · decide
  · decide

/-- C6 (amended): the createPassword rule accepts exactly the strings of
length 6–128 whose first character lies in `[A-Za-z0-9@$!%*?&]` and which
contain, before any line terminator, at least one lowercase letter, one
uppercase letter, one digit and one character from `@$!%*?&`; in particular
`Password@123` passes the pattern rule and `password123` fails it. -/
theorem createPassword_rule_characterization :
    (∀ s : String, createPasswordViolations (some s) = [] ↔
      (6 ≤ s.length ∧ s.length ≤ 128 ∧ firstCharAllowed s = true ∧
       hasLowerFL s = true ∧ hasUpperFL s = true ∧ hasDigitFL s = true ∧
       hasSpecialFL s = true)) ∧
    passwordPatternOk "Password@123" = true ∧
    passwordPatternOk "password123" = false :=
  ⟨createPasswordViolations_eq_nil_iff, by decide, by decide⟩

/-- C10: the createPassword pattern is anchored only at the first character:
any string of valid length whose first character lies in the class and whose
four required character classes occur before any line terminator passes the
whole createPassword rule, with no constraint on the remaining characters
(they may lie outside `[A-Za-z0-9@$!%*?&]`, as in `Abc123!@#` or a password
with an embedded space). -/
theorem pattern_anchored_first_char_only (s : String)
    (h1 : 6 ≤ s.length) (h2 : s.length ≤ 128)
    (h3 : firstCharAllowed s = true) (h4 : hasLowerFL s = true)
    (h5 : hasUpperFL s = true) (h6 : hasDigitFL s = true)
    (h7 : hasSpecialFL s = true) :
    createPasswordViolations (some s) = [] :=
  (createPasswordViolations_eq_nil_iff s).mpr ⟨h1, h2, h3, h4, h5, h6, h7⟩

/-- C10 (witness): `Abc123!@#` contains `#`, a character outside the class,
and an embedded-space password likewise passes the whole rule. -/
theorem pattern_anchored_first_char_only_witness :
    ('#' ∈ "Abc123!@#".data ∧ allowedPasswordChar '#' = false ∧
      createPasswordViolations (some "Abc123!@#") = []) ∧
    (' ' ∈ "Ab1! abcd".data ∧ allowedPasswordChar ' ' = false ∧
      createPasswordViolations (some "Ab1! abcd") = []) :=
  ⟨⟨by decide, by decide,
    pattern_anchored_first_char_only "Abc123!@#" (by decide) (by decide)
      (by decide) (by decide) (by decide) (by decide) (by decide)⟩,
   ⟨by decide, by decide,
    pattern_anchored_first_char_only "Ab1! abcd" (by decide) (by decide)
      (by decide) (by decide) (by decide) (by decide) (by decide)⟩⟩

theorem register_of_valid (salt : String) (body : Payload) (store : Store)
    (h : validationErrors body = []) :
    register salt body store = registerHandler salt body store := by
  simp [register, validateRegistration, h]

theorem register_of_invalid (salt : String) (body : Payload) (store : Store)
    (h : validationErrors body ≠ []) :
    register salt body store =
      (⟨400, false, "Validation failed", validationErrors body, none⟩, store) := by
  cases he : validationErrors body with
  | nil => exact absurd he h
  | cons e es => simp [register, validateRegistration, he]

theorem registerHandler_of_fresh (salt : String) (body : Payload) (store : Store)
    (hfresh : ∀ u ∈ store, u.email ≠ (getField body "email").getD "" ∧
      u.phoneNo ≠ (getField body "phoneNo").getD "") :
    registerHandler salt body store =
      (⟨201, true, "User registered successfully", [],
        some (userPublicJson (mkUser salt body))⟩, store ++ [mkUser salt body]) := by
  have hnone : store.find?
      (fun u => u.email = (getField body "email").getD "" ||
        u.phoneNo = (getField body "phoneNo").getD "") = none := by
    rw [List.find?_eq_none]
    intro u hu
    have := hfresh u hu
    simp [this.1, this.2]
  simp [registerHandler, hnone]

/-- C1: a payload that passes validation and whose email and phoneNo match
no stored record registers successfully: HTTP 201, `success: true`, `data`
the created record serialized without its password field, and the record
appended to the store. (The omission of the password from `data: user` is
the `toJSON` behaviour of the missing `models/User.js`, modelled from the
spec.) -/
theorem register_success_responds_created_record (salt : String) (body : Payload)
    (store : Store) (hval : validationErrors body = [])
    (hfresh : ∀ u ∈ store, u.email ≠ (getField body "email").getD "" ∧
      u.phoneNo ≠ (getField body "phoneNo").getD "") :
    register salt body store =
      (⟨201, true, "User registered successfully", [],
        some (userPublicJson (mkUser salt body))⟩, store ++ [mkUser salt body]) ∧
    "password" ∉ (userPublicJson (mkUser salt body)).map Prod.fst := by
  refine ⟨?_, password_not_mem_userPublicJson _⟩
  rw [register_of_valid salt body store hval,
    registerHandler_of_fresh salt body store hfresh]

/-- C1 (witness): the spec example payload against the empty store yields
201 with `data.email = "jo@x.com"` and no password key. -/
theorem register_success_responds_created_record_witness :
    (register "s0lt"
      [("firstName", "Jo"), ("lastName", "Doe"), ("email", "jo@x.com"),
       ("phoneNo", "1234567890"), ("createPassword", "Abc123!@"),
       ("confirmPassword", "Abc123!@")] []).1.status = 201 ∧
    (register "s0lt"
      [("firstName", "Jo"), ("lastName", "Doe"), ("email", "jo@x.com"),
       ("phoneNo", "1234567890"), ("createPassword", "Abc123!@"),
       ("confirmPassword", "Abc123!@")] []).1.success = true ∧
    (register "s0lt"
      [("firstName", "Jo"), ("lastName", "Doe"), ("email", "jo@x.com"),
       ("phoneNo", "1234567890"), ("createPassword", "Abc123!@"),
       ("confirmPassword", "Abc123!@")] []).1.data =
      some [("firstName", "Jo"), ("lastName", "Doe"), ("email", "jo@x.com"),
            ("phoneNo", "1234567890")] := by
  have h := register_success_responds_created_record "s0lt"
    [("firstName", "Jo"), ("lastName", "Doe"), ("email", "jo@x.com"),
     ("phoneNo", "1234567890"), ("createPassword", "Abc123!@"),
     ("confirmPassword", "Abc123!@")] [] (by decide) (by simp)
  rw [h.1]
  exact ⟨rfl, rfl, by decide⟩

/-- C2: on a successful registration the persisted record's password field
holds the salted hash of the submitted `createPassword`, the store is
otherwise untouched, and — whenever the hash differs from the raw password,
the surrogate here for one-wayness — the new record does not hold the raw
password. (The pre-save hashing lives in the missing `models/User.js` and is
modelled from the spec, see `hashPassword`.) -/
theorem register_persists_hash_not_raw_password (salt : String) (body : Payload)
    (store : Store) (hval : validationErrors body = [])
    (hfresh : ∀ u ∈ store, u.email ≠ (getField body "email").getD "" ∧
      u.phoneNo ≠ (getField body "phoneNo").getD "") :
    (register salt body store).2 = store ++ [mkUser salt body] ∧
    (mkUser salt body).password =
      hashPassword salt ((getField body "createPassword").getD "") ∧
    (hashPassword salt ((getField body "createPassword").getD "") ≠
        (getField body "createPassword").getD "" →
      (mkUser salt body).password ≠ (getField body "createPassword").getD "") := by
  refine ⟨?_, rfl, fun h => h⟩
  rw [register_of_valid salt body store hval,
    registerHandler_of_fresh salt body store hfresh]

/-- C2 (witness): for the example payload the stored password is the hash of
`Abc123!@` and differs from the raw password. -/
theorem register_persists_hash_not_raw_password_witness :
    (register "s0lt"
      [("firstName", "Jo"), ("lastName", "Doe"), ("email", "jo@x.com"),
       ("phoneNo", "1234567890"), ("createPassword", "Abc123!@"),
       ("confirmPassword", "Abc123!@")] []).2 =
      [mkUser "s0lt"
        [("firstName", "Jo"), ("lastName", "Doe"), ("email", "jo@x.com"),
         ("phoneNo", "1234567890"), ("createPassword", "Abc123!@"),
         ("confirmPassword", "Abc123!@")]] ∧
    (mkUser "s0lt"
      [("firstName", "Jo"), ("lastName", "Doe"), ("email", "jo@x.com"),
       ("phoneNo", "1234567890"), ("createPassword", "Abc123!@"),
       ("confirmPassword", "Abc123!@")]).password ≠ "Abc123!@" := by
  have h := register_persists_hash_not_raw_password "s0lt"
    [("firstName", "Jo"), ("lastName", "Doe"), ("email", "jo@x.com"),
     ("phoneNo", "1234567890"), ("createPassword", "Abc123!@"),
     ("confirmPassword", "Abc123!@")] [] (by decide) (by simp)
  exact ⟨by simpa using h.1, h.2.2 (by decide)⟩

/-- C3: whenever the payload violates at least one rule, the middleware
rejects with HTTP 400 carrying the full accumulated violation list — one
`{field, message}` pair per violated rule, in schema/chain order, fields
repeated once per rule they break — and the registration leaves the store
unchanged. -/
theorem validation_failure_accumulates_all_violations (salt : String)
    (body : Payload) (store : Store) (h : validationErrors body ≠ []) :
    validateRegistration body =
      .reject 400 "Validation failed" (validationErrors body) ∧
    register salt body store =
      (⟨400, false, "Validation failed", validationErrors body, none⟩, store) := by
  refine ⟨?_, register_of_invalid salt body store h⟩
  cases he : validationErrors body with
  | nil => exact absurd he h
  | cons e es => simp [validateRegistration, he]

/-- C3 (witness): a payload whose firstName breaks both the min-length rule
and the pattern rule yields both pairs for `firstName` — no deduplication —
and nothing is persisted. -/
theorem validation_failure_accumulates_all_violations_witness :
    validationErrors
      [("firstName", "1"), ("lastName", "Doe"), ("email", "jo@x.com"),
       ("phoneNo", "1234567890"), ("createPassword", "Abc123!@"),
       ("confirmPassword", "Abc123!@")] =
      [("firstName", "First name must be at least 2 characters long"),
       ("firstName", "First name can only contain letters and spaces")] ∧
    register "s0lt"
      [("firstName", "1"), ("lastName", "Doe"), ("email", "jo@x.com"),
       ("phoneNo", "1234567890"), ("createPassword", "Abc123!@"),
       ("confirmPassword", "Abc123!@")] [] =
      (⟨400, false, "Validation failed",
        [("firstName", "First name must be at least 2 characters long"),
         ("firstName", "First name can only contain letters and spaces")], none⟩,
       []) := by
  have h := validation_failure_accumulates_all_violations "s0lt"
    [("firstName", "1"), ("lastName", "Doe"), ("email", "jo@x.com"),
     ("phoneNo", "1234567890"), ("createPassword", "Abc123!@"),
     ("confirmPassword", "Abc123!@")] [] (by decide)
  refine ⟨by decide, ?_⟩
  rw [h.2]
  decide

/-- C4: after a first successful registration from the empty store, a second
valid payload whose email equals the first one's is rejected with the
conflict outcome attributed to `email` (the handler tests the email match
first, so email takes precedence over phoneNo even when both match), and the
store is unchanged. -/
theorem second_registration_same_email_conflicts (s1 s2 : String)
    (b1 b2 : Payload) (h1 : (register s1 b1 []).1.status = 201)
    (h2 : validationErrors b2 = [])
    (he : getField b2 "email" = getField b1 "email") :
    register s2 b2 (register s1 b1 []).2 =
      (⟨400, false, "User already exists",
        [("email", "Email is already registered")], none⟩,
       (register s1 b1 []).2) := by
  have hv1 : validationErrors b1 = [] := by
    by_contra hne
    rw [register_of_invalid s1 b1 [] hne] at h1
    simp at h1
  have hstore : (register s1 b1 []).2 = [mkUser s1 b1] := by
    rw [register_of_valid s1 b1 [] hv1,
      registerHandler_of_fresh s1 b1 [] (by simp)]
    rfl
  rw [hstore, register_of_valid s2 b2 _ h2, registerHandler]
  have hmatch : (mkUser s1 b1).email = (getField b2 "email").getD "" := by
    simp [mkUser, he]
  simp [List.find?, hmatch]

/-- C4 (witness): two sequential registrations with identical email and
different phone numbers; the second fails with the conflict on `email`. -/
theorem second_registration_same_email_conflicts_witness :
    register "t2"
      [("firstName", "Ann"), ("lastName", "Lee"), ("email", "jo@x.com"),
       ("phoneNo", "0987654321"), ("createPassword", "Xyz789?&"),
       ("confirmPassword", "Xyz789?&")]
      (register "t1"
        [("firstName", "Jo"), ("lastName", "Doe"), ("email", "jo@x.com"),
         ("phoneNo", "1234567890"), ("createPassword", "Abc123!@"),
         ("confirmPassword", "Abc123!@")] []).2 =
      (⟨400, false, "User already exists",
        [("email", "Email is already registered")], none⟩,
       (register "t1"
        [("firstName", "Jo"), ("lastName", "Doe"), ("email", "jo@x.com"),
         ("phoneNo", "1234567890"), ("createPassword", "Abc123!@"),
         ("confirmPassword", "Abc123!@")] []).2) :=
  second_registration_same_email_conflicts "t1" "t2"
    [("firstName", "Jo"), ("lastName", "Doe"), ("email", "jo@x.com"),
     ("phoneNo", "1234567890"), ("createPassword", "Abc123!@"),
     ("confirmPassword", "Abc123!@")]
    [("firstName", "Ann"), ("lastName", "Lee"), ("email", "jo@x.com"),
     ("phoneNo", "0987654321"), ("createPassword", "Xyz789?&"),
     ("confirmPassword", "Xyz789?&")]
    (by decide) (by decide) (by decide)

/-- C5: whenever the submitted confirmPassword differs from createPassword
(as optional fields: absent counts as different from any present value),
registration is rejected with HTTP 400 carrying a violation on the field
`confirmPassword`, and the store is unchanged. -/
theorem mismatched_confirmPassword_rejected (salt : String) (body : Payload)
    (store : Store)
    (h : getField body "confirmPassword" ≠ getField body "createPassword") :
    (register salt body store).1.status = 400 ∧
    (register salt body store).1.success = false ∧
    "confirmPassword" ∈ (register salt body store).1.errors.map Prod.fst ∧
    (register salt body store).2 = store := by
  obtain ⟨m, hm⟩ : ∃ m, confirmPasswordViolations (getField body "createPassword")
      (getField body "confirmPassword") = [("confirmPassword", m)] := by
    cases hco : getField body "confirmPassword" with
    | none => exact ⟨"Confirm password is required", rfl⟩
    | some c =>
      have hne : getField body "createPassword" ≠ some c := by
        intro hcc
        exact h (hco.trans hcc.symm)
      exact ⟨"Confirm password must match the password",
        by simp [confirmPasswordViolations, hne]⟩
  have hmem : ("confirmPassword", m) ∈ validationErrors body := by
    rw [validationErrors]
    refine List.mem_append_right _ ?_
    rw [hm]
    exact List.mem_singleton_self _
  have hne : validationErrors body ≠ [] := by
    intro h0
    rw [h0] at hmem
    exact List.not_mem_nil _ hmem
  rw [register_of_invalid salt body store hne]
  exact ⟨rfl, rfl, List.mem_map_of_mem Prod.fst hmem, rfl⟩

/-- C5 (witness): a payload whose confirmPassword differs from its
createPassword is rejected with a `confirmPassword` violation and nothing
is stored. -/
theorem mismatched_confirmPassword_rejected_witness :
    (register "s0lt"
      [("firstName", "Jo"), ("lastName", "Doe"), ("email", "jo@x.com"),
       ("phoneNo", "1234567890"), ("createPassword", "Abc123!@"),
       ("confirmPassword", "Abc123!X")] []).1.status = 400 ∧
    (register "s0lt"
      [("firstName", "Jo"), ("lastName", "Doe"), ("email", "jo@x.com"),
       ("phoneNo", "1234567890"), ("createPassword", "Abc123!@"),
       ("confirmPassword", "Abc123!X")] []).1.success = false ∧
    "confirmPassword" ∈ (register "s0lt"
      [("firstName", "Jo"), ("lastName", "Doe"), ("email", "jo@x.com"),
       ("phoneNo", "1234567890"), ("createPassword", "Abc123!@"),
       ("confirmPassword", "Abc123!X")] []).1.errors.map Prod.fst ∧
    (register "s0lt"
      [("firstName", "Jo"), ("lastName", "Doe"), ("email", "jo@x.com"),
       ("phoneNo", "1234567890"), ("createPassword", "Abc123!@"),
       ("confirmPassword", "Abc123!X")] []).2 = [] :=
  mismatched_confirmPassword_rejected "s0lt"
    [("firstName", "Jo"), ("lastName", "Doe"), ("email", "jo@x.com"),
     ("phoneNo", "1234567890"), ("createPassword", "Abc123!@"),
     ("confirmPassword", "Abc123!X")] [] (by decide)

/-- C7: in the catch branch a duplicate-key (write-time uniqueness) error
answers the conflict outcome — HTTP 400, attributing the field reported in
the store's `keyPattern` — never the generic server error; and the generic
HTTP 500 outcome with its fixed generic message arises exactly for errors
that are neither Mongoose validation errors nor duplicate-key errors. -/
theorem duplicate_key_conflict_not_server_error :
    (∀ f : String, handleRegistrationError (.duplicateKey [f]) =
      ⟨400, false, "User already exists",
        [(f, f ++ " is already registered")], none⟩) ∧
    handleRegistrationError .other =
      ⟨500, false, "Internal server error",
        [("server", "Something went wrong. Please try again later.")], none⟩ ∧
    (∀ e : DbError, (handleRegistrationError e).status = 500 → e = .other) := by
  refine ⟨fun f => rfl, rfl, fun e => ?_⟩
  cases e with
  | validationError errs =>
    intro h
    simp [handleRegistrationError] at h
  | duplicateKey kp =>
    intro h
    simp [handleRegistrationError] at h
  | other =>
    intro _
    rfl

/-- C7 (witness): a duplicate-key error on `email` yields the 400 conflict
shape, and the only-500-for-unexpected implication applies to the generic
error. -/
theorem duplicate_key_conflict_not_server_error_witness :
    handleRegistrationError (.duplicateKey ["email"]) =
      ⟨400, false, "User already exists",
        [("email", "email is already registered")], none⟩ ∧
    DbError.other = DbError.other :=
  ⟨duplicate_key_conflict_not_server_error.1 "email",
   duplicate_key_conflict_not_server_error.2.2 .other rfl⟩

/-- C8: for every store state, the listing endpoint answers 200 with every
stored record projected through `select('-password')`, and no returned
record contains a password key. -/
theorem listing_returns_all_without_password (store : Store) :
    listUsers store =
      ⟨200, true, "Users retrieved successfully", store.map userPublicJson⟩ ∧
    ∀ d ∈ (listUsers store).data, "password" ∉ d.map Prod.fst := by
  refine ⟨rfl, fun d hd => ?_⟩
  simp only [listUsers] at hd
  rcases List.mem_map.mp hd with ⟨u, _, rfl⟩
  exact password_not_mem_userPublicJson u

/-- C8 (witness): a concrete stored record is listed without a password
key. -/
theorem listing_returns_all_without_password_witness :
    "password" ∉
      (userPublicJson ⟨"Jo", "Doe", "jo@x.com", "1234567890", "h4sh"⟩).map
        Prod.fst :=
  (listing_returns_all_without_password
      [⟨"Jo", "Doe", "jo@x.com", "1234567890", "h4sh"⟩]).2
    (userPublicJson ⟨"Jo", "Doe", "jo@x.com", "1234567890", "h4sh"⟩)
    (by simp [listUsers])

theorem find?_key_filter (p : String × String → Bool) (body : Payload)
    (k : String) (hp : ∀ kv : String × String, kv.1 = k → p kv = true) :
    (body.filter p).find? (fun kv => kv.1 = k) =
      body.find? (fun kv => kv.1 = k) := by
  induction body with
  | nil => rfl
  | cons kv rest ih =>
    by_cases hk : kv.1 = k
    · rw [List.filter_cons_of_pos (hp kv hk),
        List.find?_cons_of_pos _ (by simp [hk]),
        List.find?_cons_of_pos _ (by simp [hk])]
    · cases hpkv : p kv with
      | true =>
        rw [List.filter_cons_of_pos hpkv,
          List.find?_cons_of_neg _ (by simp [hk]),
          List.find?_cons_of_neg _ (by simp [hk]), ih]
      | false =>
        rw [List.filter_cons_of_neg (by simp [hpkv]),
          List.find?_cons_of_neg _ (by simp [hk]), ih]

theorem getField_stripUnknown (body : Payload) (k : String)
    (hk : knownFields.contains k = true) :
    getField (stripUnknown body) k = getField body k := by
  unfold getField stripUnknown
  rw [find?_key_filter]
  intro kv hkv
  rw [hkv]
  exact hk

theorem validationErrors_stripUnknown (body : Payload) :
    validationErrors (stripUnknown body) = validationErrors body := by
  unfold validationErrors
  rw [getField_stripUnknown body "firstName" (by decide),
    getField_stripUnknown body "lastName" (by decide),
    getField_stripUnknown body "email" (by decide),
    getField_stripUnknown body "phoneNo" (by decide),
    getField_stripUnknown body "createPassword" (by decide),
    getField_stripUnknown body "confirmPassword" (by decide)]

theorem mkUser_stripUnknown (salt : String) (body : Payload) :
    mkUser salt (stripUnknown body) = mkUser salt body := by
  unfold mkUser
  rw [getField_stripUnknown body "firstName" (by decide),
    getField_stripUnknown body "lastName" (by decide),
    getField_stripUnknown body "email" (by decide),
    getField_stripUnknown body "phoneNo" (by decide),
    getField_stripUnknown body "createPassword" (by decide)]

theorem registerHandler_stripUnknown (salt : String) (body : Payload)
    (store : Store) :
    registerHandler salt (stripUnknown body) store =
      registerHandler salt body store := by
  unfold registerHandler
  rw [getField_stripUnknown body "email" (by decide),
    getField_stripUnknown body "phoneNo" (by decide),
    mkUser_stripUnknown]

/-- C9 (counterexample): the middleware does not hand the stripped payload
onward: Joi strips unknown keys from its returned copy, but the middleware
discards that copy and calls `next()` with `req.body` untouched, so the
payload handed to the handler still contains the unknown key `admin` even
though the normalized payload would not. -/
theorem c9_counterexample :
    validateRegistration
      [("firstName", "Jo"), ("lastName", "Doe"), ("email", "jo@x.com"),
       ("phoneNo", "1234567890"), ("createPassword", "Abc123!@"),
       ("confirmPassword", "Abc123!@"), ("admin", "true")] =
      .next
        [("firstName", "Jo"), ("lastName", "Doe"), ("email", "jo@x.com"),
         ("phoneNo", "1234567890"), ("createPassword", "Abc123!@"),
         ("confirmPassword", "Abc123!@"), ("admin", "true")] ∧
    "admin" ∈
      ([("firstName", "Jo"), ("lastName", "Doe"), ("email", "jo@x.com"),
        ("phoneNo", "1234567890"), ("createPassword", "Abc123!@"),
        ("confirmPassword", "Abc123!@"), ("admin", "true")] : Payload).map
        Prod.fst ∧
    "admin" ∉
      (stripUnknown
        [("firstName", "Jo"), ("lastName", "Doe"), ("email", "jo@x.com"),
         ("phoneNo", "1234567890"), ("createPassword", "Abc123!@"),
         ("confirmPassword", "Abc123!@"), ("admin", "true")]).map Prod.fst := by
  refine ⟨by decide, by decide, by decide⟩

/-- C9 (amended): unknown fields are silently dropped from Joi's normalized
copy and never reported as errors (validation sees only the six known
fields), and the whole registration outcome — response and persisted store —
is unchanged by stripping them, because the handler reads only the six known
fields; however the payload handed onward by the middleware is the original
body, not the stripped copy. -/
theorem unknown_fields_ignored_not_errors (salt : String) (body : Payload)
    (store : Store) :
    validationErrors (stripUnknown body) = validationErrors body ∧
    (validationErrors body = [] → validateRegistration body = .next body) ∧
    register salt (stripUnknown body) store = register salt body store := by
  refine ⟨validationErrors_stripUnknown body, ?_, ?_⟩
  · intro h
    simp [validateRegistration, h]
  · cases he : validationErrors body with
    | nil =>
      rw [register_of_valid salt body store he,
        register_of_valid salt (stripUnknown body) store
          ((validationErrors_stripUnknown body).trans he),
        registerHandler_stripUnknown]
    | cons e es =>
      rw [register_of_invalid salt body store (by simp [he]),
        register_of_invalid salt (stripUnknown body) store
          (by rw [validationErrors_stripUnknown body, he]; simp),
        validationErrors_stripUnknown body]

/-- C9 (amended, witness): for the concrete payload with the unknown key
`admin`, stripping changes neither the validation outcome nor the
registration result, and the middleware forwards the body. -/
theorem unknown_fields_ignored_not_errors_witness :
    validateRegistration
      [("firstName", "Jo"), ("lastName", "Doe"), ("email", "jo@x.com"),
       ("phoneNo", "1234567890"), ("createPassword", "Abc123!@"),
       ("confirmPassword", "Abc123!@"), ("admin", "true")] =
      .next
        [("firstName", "Jo"), ("lastName", "Doe"), ("email", "jo@x.com"),
         ("phoneNo", "1234567890"), ("createPassword", "Abc123!@"),
         ("confirmPassword", "Abc123!@"), ("admin", "true")] ∧
    register "s0lt"
      (stripUnknown
        [("firstName", "Jo"), ("lastName", "Doe"), ("email", "jo@x.com"),
         ("phoneNo", "1234567890"), ("createPassword", "Abc123!@"),
         ("confirmPassword", "Abc123!@"), ("admin", "true")]) [] =
      register "s0lt"
        [("firstName", "Jo"), ("lastName", "Doe"), ("email", "jo@x.com"),
         ("phoneNo", "1234567890"), ("createPassword", "Abc123!@"),
         ("confirmPassword", "Abc123!@"), ("admin", "true")] [] :=
  ⟨(unknown_fields_ignored_not_errors "s0lt"
      [("firstName", "Jo"), ("lastName", "Doe"), ("email", "jo@x.com"),
       ("phoneNo", "1234567890"), ("createPassword", "Abc123!@"),
       ("confirmPassword", "Abc123!@"), ("admin", "true")] []).2.1 (by decide),
   (unknown_fields_ignored_not_errors "s0lt"
      [("firstName", "Jo"), ("lastName", "Doe"), ("email", "jo@x.com"),
       ("phoneNo", "1234567890"), ("createPassword", "Abc123!@"),
       ("confirmPassword", "Abc123!@"), ("admin", "true")] []).2.2⟩

end Signup
